import Mathlib

/-!
Shallow embedding of the round-scheduling and configuration core of the
tapyrus-signer node (src/signer_node/mod.rs, src/signer_node/node_parameters.rs,
src/bin/node.rs), together with theorems settling the specification claims
about master election, DKG parameter wiring, message dispatch, timer setup
and startup validation.

Machine integers: usize and u64 values are modelled as Nat; where an
overflow or an out-of-bounds panic can change behaviour this is modelled
explicitly (reduction modulo 2^64 for the u64 timer sum, Option results for
fallible slice indexing and for the expect-unwraps that can panic).
Elliptic-curve scalars (FE) and points (GE) are opaque values compared only
for equality, as the crypto library is an external collaborator of the
specified system.
-/

/-- Compressed secp256k1 public key, opaque to the scheduling logic; only
equality of its serialization matters to the embedded code. -/
structure PublicKey where
  key : Nat
deriving DecidableEq, Repr

/-- Identity of a signer: its public key (net::SignerID). -/
structure SignerID where
  pubkey : PublicKey
deriving DecidableEq, Repr

/-- secp256k1 private key, opaque. -/
structure PrivateKey where
  key : Nat
deriving DecidableEq, Repr

/-- Field element of the curve's scalar field, opaque (curv FE). -/
abbrev FE := Nat

/-- Curve group element, opaque (curv GE). -/
abbrev GE := Nat

/-- Block is an opaque blob with a deterministic sighash. -/
structure Block where
  sighash : Nat
deriving DecidableEq, Repr

/-- Feldman VSS scheme data: sharing parameters and the commitment vector
(curv VerifiableSS). Opaque to the scheduling logic. -/
structure VerifiableSS where
  vss_threshold : Nat
  vss_share_count : Nat
  commitments : List GE
deriving DecidableEq, Repr

/-- Pair of a VSS commitment vector and a scalar share (signer_node::SharedSecret). -/
structure SharedSecret where
  vss : VerifiableSS
  secret_share : FE
deriving DecidableEq, Repr

/-- Map from SignerID to SharedSecret, modelled as an association list in
SignerID order (signer_node::SharedSecretMap, a BTreeMap). -/
abbrev SharedSecretMap := List (SignerID × SharedSecret)

/-- Map from SignerID to a (positive, negative) pair of shared secrets
(signer_node::BidirectionalSharedSecretMap). -/
abbrev BidirectionalSharedSecretMap := List (SignerID × (SharedSecret × SharedSecret))

/-- Output of DKG for this node: its scalar share of the group secret and the
aggregated group public key (multi_party_schnorr::SharedKeys). -/
structure SharedKeys where
  x_i : FE
  y : GE
deriving DecidableEq, Repr

/-- Per-round local key material stored once participants are fixed:
(parity of the aggregated nonce, local nonce share, aggregated nonce point). -/
abbrev BlockSharedKeys := Bool × FE × GE

/-- State of a signer node (signer_node::node_state::NodeState).
Master and Member carry the per-round data; RoundComplete carries this
round's master index and the index chosen for the next round. -/
inductive NodeState where
  | Joining : NodeState
  | Master (candidate_block : Option Block) (block_key : Option FE)
      (shared_block_secrets : BidirectionalSharedSecretMap)
      (block_shared_keys : Option BlockSharedKeys)
      (participants : List SignerID) : NodeState
  | Member (block_key : Option FE)
      (block_shared_keys : Option BlockSharedKeys)
      (shared_block_secrets : BidirectionalSharedSecretMap)
      (candidate_block : Option Block)
      (participants : List SignerID)
      (member_master_index : Nat) : NodeState
  | RoundComplete (rc_master_index : Nat) (rc_next_master_index : Nat) : NodeState
deriving DecidableEq, Repr

/-- Configuration of the node as the scheduling core reads it
(signer_node::NodeParameters): signer list, threshold, own index and own id
of the active federation, plus the round duration in seconds. The two
source forms of NodeParameters (federation-aware accessors and plain
fields) agree on these values for the active federation. -/
structure NodeParameters where
  signer_id : SignerID
  pubkey_list : List PublicKey
  threshold : Nat
  self_node_index : Nat
  round_duration : Nat
deriving DecidableEq, Repr

/-- Parameters handed to the multi-party-Schnorr library
(multi_party_schnorr::Parameters). -/
structure Parameters where
  threshold : Nat
  share_count : Nat
deriving DecidableEq, Repr

/-- Round interval default (mod.rs ROUND_INTERVAL_DEFAULT_SECS). -/
def ROUND_INTERVAL_DEFAULT_SECS : Nat := 60

/-- Extra slack added to the round duration for the round timer
(mod.rs ROUND_TIMELIMIT_DELTA). -/
def ROUND_TIMELIMIT_DELTA : Nat := 10

/-- Modulus of Rust's u64 arithmetic. -/
def U64_MOD : Nat := 2 ^ 64

/-- Modulus of Rust's u8 arithmetic. -/
def U8_MOD : Nat := 2 ^ 8

/-- Initial master index used for round 0 (mod.rs INITIAL_MASTER_INDEX). -/
def INITIAL_MASTER_INDEX : Nat := 0

/-- Embedding of signer_node::master_index: the federation index of the
current round's master, if a round is underway. -/
def master_index (state : NodeState) (params : NodeParameters) : Option Nat :=
  match state with
  | .Master _ _ _ _ _ => some params.self_node_index
  | .Member _ _ _ _ _ mi => some mi
  | .RoundComplete mi _ => some mi
  | _ => none

/-- Embedding of signer_node::next_master_index: the federation index of the
next round's master, computed from the current state by round-robin. The
final reduction mod pubkey_list.length is applied to every branch, exactly
as in the source. -/
def next_master_index (state : NodeState) (params : NodeParameters) : Nat :=
  let next : Nat :=
    match state with
    | .Joining => 0
    | .Master _ _ _ _ _ => params.self_node_index + 1
    | .Member _ _ _ _ _ mi => mi + 1
    | .RoundComplete _ nmi => nmi
  next % params.pubkey_list.length

/-- Embedding of signer_node::is_master: whether the given sender is the
current round's master. In the Member branch the source indexes
pubkey_list[master_index]; an out-of-bounds index panics in Rust, modelled
here as none. -/
def is_master (sender_id : SignerID) (state : NodeState) (params : NodeParameters) :
    Option Bool :=
  match state with
  | .Master _ _ _ _ _ => some (decide (params.signer_id = sender_id))
  | .Member _ _ _ _ _ mi =>
    (params.pubkey_list.get? mi).map (fun master_id => decide (master_id = sender_id.pubkey))
  | _ => some false

/-- Embedding of NodeParameters::sharing_params: the Parameters value handed
to the multi-party-Schnorr library. The source computes the library
threshold as the configured federation threshold minus one (u8 arithmetic on
a u8 field; the subtraction is well defined for threshold at least 1, and
underflow for threshold 0 would panic in Rust, which no caller reaches since
a federation threshold is at least 1), and casts the signer count to u8
before widening it back to usize, so a list of 256 or more keys is silently
truncated modulo 256; the cast is modelled by the explicit reduction. -/
def NodeParameters.sharing_params (p : NodeParameters) : Parameters :=
  { threshold := p.threshold - 1
    share_count := p.pubkey_list.length % U8_MOD }

/-- Arguments that SignerNode::create_node_share passes to
VerifiableSS::share_at_indices: the library threshold, the share count, and
the list of evaluation points. -/
structure ShareAtIndicesArgs where
  t : Nat
  n : Nat
  parties : List Nat
deriving DecidableEq, Repr

/-- Embedding of the dealer step of SignerNode::create_node_share: it reads
sharing_params and builds parties = (0..share_count).map(i+1), then calls
VerifiableSS::share_at_indices(params.threshold, params.share_count,
key.u_i, parties). This definition captures exactly those arguments. -/
def create_node_share_vss_args (p : NodeParameters) : ShareAtIndicesArgs :=
  let params := p.sharing_params
  let parties := (List.range params.share_count).map (fun i => i + 1)
  { t := params.threshold
    n := params.share_count
    parties := parties }

/-- Block-generation-round message kinds with their payloads
(net::BlockGenerationRoundMessageType). -/
inductive BlockGenerationRoundMessageType where
  | Candidateblock (block : Block)
  | Completedblock (block : Block)
  | Blockvss (blockhash : Nat) (vss_for_positive : VerifiableSS)
      (secret_share_for_positive : FE) (vss_for_negative : VerifiableSS)
      (secret_share_for_negative : FE)
  | Blockparticipants (blockhash : Nat) (participants : List SignerID)
  | Blocksig (blockhash : Nat) (gamma_i : FE) (e : FE)
  | Roundfailure
deriving DecidableEq, Repr

/-- Embedding of SignerNode::process_roundfailure: the current state is
returned unchanged (the source clones self.current_state). -/
def process_roundfailure (current_state : NodeState) (_sender_id : SignerID) : NodeState :=
  current_state

/-- Interface of the per-message processors that process_round_message
dispatches to (signer_node::message_processor). Each is a total function
from its inputs to the next NodeState, as in the source signatures; the
module itself lives outside the embedded files, so the dispatch below is
parametrised over it. -/
structure MessageProcessors where
  process_candidateblock : SignerID → Block → NodeState → NodeState
  process_completedblock : SignerID → Block → NodeState → NodeState
  process_blockvss : SignerID → Nat → VerifiableSS → FE → VerifiableSS → FE →
      NodeState → SharedKeys → NodeState
  process_blockparticipants : SignerID → Nat → List SignerID → SharedKeys →
      NodeState → NodeState
  process_blocksig : SignerID → Nat → FE → FE → SharedKeys → SharedSecretMap →
      NodeState → NodeState

/-- Embedding of SignerNode::process_round_message. The source unwraps
self.priv_shared_keys with expect() before dispatching Blockvss,
Blockparticipants and Blocksig; the panic of that expect when
priv_shared_keys is None is modelled as none. -/
def process_round_message (procs : MessageProcessors)
    (priv_shared_keys : Option SharedKeys) (shared_secrets : SharedSecretMap)
    (current_state : NodeState) (sender_id : SignerID) :
    BlockGenerationRoundMessageType → Option NodeState
  | .Candidateblock block => some (procs.process_candidateblock sender_id block current_state)
  | .Completedblock block => some (procs.process_completedblock sender_id block current_state)
  | .Blockvss blockhash vp sp vn sn =>
    match priv_shared_keys with
    | some keys => some (procs.process_blockvss sender_id blockhash vp sp vn sn
        current_state keys)
    | none => none
  | .Blockparticipants blockhash participants =>
    match priv_shared_keys with
    | some keys => some (procs.process_blockparticipants sender_id blockhash participants
        keys current_state)
    | none => none
  | .Blocksig blockhash gamma_i e =>
    match priv_shared_keys with
    | some keys => some (procs.process_blocksig sender_id blockhash gamma_i e keys
        shared_secrets current_state)
    | none => none
  | .Roundfailure => some (process_roundfailure current_state sender_id)

/-- True exactly for the message kinds whose dispatch in
process_round_message unwraps priv_shared_keys with expect(). -/
def requires_priv_shared_keys : BlockGenerationRoundMessageType → Bool
  | .Blockvss _ _ _ _ _ => true
  | .Blockparticipants _ _ => true
  | .Blocksig _ _ _ => true
  | _ => false

/-- Relevant fields of the SignerNode value built by SignerNode::new:
the initial state, the DKG slots and the time limit passed to
RoundTimeOutObserver::new. -/
structure SignerNodeInit where
  current_state : NodeState
  priv_shared_keys : Option SharedKeys
  shared_secrets : SharedSecretMap
  round_timer_limit : Nat
deriving DecidableEq, Repr

/-- Embedding of SignerNode::new: timer limit is the u64 sum
round_duration + ROUND_TIMELIMIT_DELTA (reduced mod 2^64 as in Rust u64
arithmetic), initial state Joining, DKG slots empty. -/
def SignerNode.new (params : NodeParameters) : SignerNodeInit :=
  { current_state := .Joining
    priv_shared_keys := none
    shared_secrets := []
    round_timer_limit := (params.round_duration + ROUND_TIMELIMIT_DELTA) % U64_MOD }

/-- Error of the RPC adapter, opaque to the scheduling logic. -/
structure RpcError where
  msg : String
deriving DecidableEq, Repr

/-- Modelled from the spec: the default Master state produced by the
node_state builder (src/signer_node/node_state.rs, which is not among the
embedded source files; mod.rs only calls Master::default().build()). Per
the spec's data model the Master payload is candidate_block?, block_key?,
shared_block_secrets, block_shared_keys?, participants, and the default
leaves every optional field unset and every collection empty. -/
def Master_default : NodeState :=
  .Master none none [] none []

/-- Result of SignerNode::start_new_round: the state it returns and the
round messages it broadcasts while doing so. -/
structure RoundStartResult where
  state : NodeState
  broadcasts : List BlockGenerationRoundMessageType
deriving DecidableEq, Repr

/-- Embedding of SignerNode::start_new_round. Its effectful inputs are made
explicit: the result of the RPC getnewblock call, and the outcome of
message_processor::create_block_vss (a key u_i and this node's positive and
negative block shared secrets; that module is outside the embedded files).
On RPC failure the source logs and returns Master::default().build() before
any broadcast; on success it broadcasts Candidateblock(block) and builds a
Master state holding the block, the block key and its own entry in
shared_block_secrets. -/
def start_new_round (params : NodeParameters)
    (getnewblock_result : Except RpcError Block)
    (block_vss : Block → FE × SharedSecret × SharedSecret) : RoundStartResult :=
  match getnewblock_result with
  | .error _ => { state := Master_default, broadcasts := [] }
  | .ok block =>
    let r := block_vss block
    { state := .Master (some block) (some r.1)
        [(params.signer_id, (r.2.1, r.2.2))] none []
      broadcasts := [.Candidateblock block] }

namespace errors

/-- Error type of the node binary (tapyrus_signer::errors::Error), restricted
to the variant validate_options produces. -/
inductive Error where
  | InvalidArgs (msg : String)
deriving DecidableEq, Repr

end errors

/-- Embedding of bin/node.rs validate_options. Derivation of the public key
from the private key is the secp256k1 library operation, passed in as a
function. The source returns InvalidArgs when the public-key list is
shorter than the threshold, then InvalidArgs when the derived public key is
not found in the list, and Ok otherwise. -/
def validate_options (derive_public_key : PrivateKey → PublicKey)
    (public_keys : List PublicKey) (private_key : PrivateKey) (threshold : Nat) :
    Except errors.Error Unit :=
  if public_keys.length < threshold then
    .error (.InvalidArgs ("Not enough number of public keys."))
  else
    let pubkey_from_private := derive_public_key private_key
    match public_keys.find? (fun p => decide (p = pubkey_from_private)) with
    | some _ => .ok ()
    | none =>
      .error (.InvalidArgs ("Private key is not pair of any one of Public key list."))

/-- State a node holds for the round whose master has federation index i,
as set by SignerNode::start_next_round: the node enters a Master state when
the index is its own, and Member { master_index := i } otherwise. Only the
constructor and the index matter to the round-robin schedule; the Master
per-round payload is the one built by start_new_round on RPC failure and is
irrelevant to next_master_index. -/
def round_result_state (params : NodeParameters) (i : Nat) : NodeState :=
  if params.self_node_index = i then Master_default
  else .Member none none [] none [] i

/-- Master index of the k-th round reached from state s0 by repeatedly
applying next_master_index to the state the previous round left the node in
(absent failures): round 0's master is next_master_index of s0, and each
later round's master is next_master_index of the Master/Member state of the
round before it. -/
def master_seq (params : NodeParameters) (s0 : NodeState) : Nat → Nat
  | 0 => next_master_index s0 params
  | k + 1 => next_master_index (round_result_state params (master_seq params s0 k)) params

/-- Test fixture: public key with serialization n. -/
def pk (n : Nat) : PublicKey := { key := n }

/-- Test fixture: signer id with public key n. -/
def sid (n : Nat) : SignerID := { pubkey := pk n }

/-- Test fixture: a federation of two signers, threshold 2, this node at
index 0. -/
def sampleParams2 : NodeParameters :=
  { signer_id := sid 0
    pubkey_list := [pk 0, pk 1]
    threshold := 2
    self_node_index := 0
    round_duration := 60 }

/-- Test fixture: a federation of three signers, threshold 2, this node at
index 0. -/
def sampleParams3 : NodeParameters :=
  { signer_id := sid 0
    pubkey_list := [pk 0, pk 1, pk 2]
    threshold := 2
    self_node_index := 0
    round_duration := 60 }

/-- Test fixture: a VSS value. -/
def sampleVss : VerifiableSS := { vss_threshold := 1, vss_share_count := 2, commitments := [] }

/-- Test fixture: message processors that leave the state unchanged; the
dispatch behaviour under test does not depend on the processor bodies. -/
def constProcessors : MessageProcessors :=
  { process_candidateblock := fun _ _ s => s
    process_completedblock := fun _ _ s => s
    process_blockvss := fun _ _ _ _ _ _ s _ => s
    process_blockparticipants := fun _ _ _ _ s => s
    process_blocksig := fun _ _ _ _ _ _ s => s }

theorem next_master_index_lt (state : NodeState) (params : NodeParameters)
    (h : 0 < params.pubkey_list.length) :
    next_master_index state params < params.pubkey_list.length :=
  Nat.mod_lt _ h

theorem master_seq_lt (params : NodeParameters) (s0 : NodeState)
    (h : 0 < params.pubkey_list.length) (k : Nat) :
    master_seq params s0 k < params.pubkey_list.length := by
  cases k with
  | zero => exact Nat.mod_lt _ h
  | succ k => exact Nat.mod_lt _ h

theorem master_seq_succ (params : NodeParameters) (s0 : NodeState) (k : Nat) :
    master_seq params s0 (k + 1)
      = (master_seq params s0 k + 1) % params.pubkey_list.length := by
  show next_master_index (round_result_state params (master_seq params s0 k)) params = _
  unfold round_result_state
  by_cases h : params.self_node_index = master_seq params s0 k
  · rw [if_pos h]
    show (params.self_node_index + 1) % params.pubkey_list.length = _
    rw [h]
  · rw [if_neg h]
    rfl

theorem master_seq_closed (params : NodeParameters) (s0 : NodeState)
    (h : 0 < params.pubkey_list.length) (k : Nat) :
    master_seq params s0 k
      = (master_seq params s0 0 + k) % params.pubkey_list.length := by
  induction k with
  | zero =>
    rw [Nat.add_zero, Nat.mod_eq_of_lt (master_seq_lt params s0 h 0)]
  | succ k ih =>
    rw [master_seq_succ, ih]
    exact (Nat.mod_modEq (master_seq params s0 0 + k) params.pubkey_list.length).add_right 1

theorem nodup_count_of_bound (N : Nat) (l : List Nat) (hn : l.Nodup)
    (hlen : l.length = N) (hlt : ∀ x ∈ l, x < N) :
    ∀ j, j < N → l.count j = 1 := by
  intro j hj
  have hsub : l.toFinset ⊆ Finset.range N := by
    intro x hx
    rw [List.mem_toFinset] at hx
    exact Finset.mem_range.mpr (hlt x hx)
  have hcard : l.toFinset.card = N := by
    rw [List.toFinset_card_of_nodup hn, hlen]
  have heq : l.toFinset = Finset.range N := by
    apply Finset.eq_of_subset_of_card_le hsub
    rw [hcard, Finset.card_range]
  have hmem : j ∈ l := by
    rw [← List.mem_toFinset, heq]
    exact Finset.mem_range.mpr hj
  exact List.count_eq_one_of_mem hn hmem

/-- C1 counterexample: with two signers, a RoundComplete state storing
next_master_index 5 makes next_master_index return 5 mod 2 = 1, not the
stored value 5 that the claim asserts. -/
theorem C1_counterexample :
    sampleParams2.pubkey_list.length = 2 ∧
    next_master_index (NodeState.RoundComplete 0 5) sampleParams2 = 1 ∧
    (1 : Nat) ≠ 5 := by
  decide

/-- C1 (amended): for parameters with a non-empty signer list of length N,
next_master_index returns 0 from Joining, (self_node_index + 1) mod N from
Master, (master_index + 1) mod N from Member, and the stored
next_master_index reduced mod N from RoundComplete (equal to the stored
value whenever it is below N). -/
theorem C1_next_master_index_cases (params : NodeParameters) (N : Nat)
    (hN : params.pubkey_list.length = N) (hpos : 0 < N) :
    next_master_index NodeState.Joining params = 0 ∧
    (∀ cb bk sbs bsk ps,
      next_master_index (NodeState.Master cb bk sbs bsk ps) params
        = (params.self_node_index + 1) % N) ∧
    (∀ bk bsk sbs cb ps mi,
      next_master_index (NodeState.Member bk bsk sbs cb ps mi) params = (mi + 1) % N) ∧
    (∀ mi nmi,
      next_master_index (NodeState.RoundComplete mi nmi) params = nmi % N) := by
  subst hN
  refine ⟨?_, fun _ _ _ _ _ => rfl, fun _ _ _ _ _ _ => rfl, fun _ _ => rfl⟩
  show 0 % params.pubkey_list.length = 0
  exact Nat.zero_mod _

/-- C1 witness: the amended statement instantiated at a concrete three-signer
federation. -/
theorem C1_next_master_index_cases_witness :
    sampleParams3.pubkey_list.length = 3 ∧ 0 < 3 ∧
    (next_master_index NodeState.Joining sampleParams3 = 0 ∧
    (∀ cb bk sbs bsk ps,
      next_master_index (NodeState.Master cb bk sbs bsk ps) sampleParams3
        = (sampleParams3.self_node_index + 1) % 3) ∧
    (∀ bk bsk sbs cb ps mi,
      next_master_index (NodeState.Member bk bsk sbs cb ps mi) sampleParams3
        = (mi + 1) % 3) ∧
    (∀ mi nmi,
      next_master_index (NodeState.RoundComplete mi nmi) sampleParams3 = nmi % 3)) :=
  ⟨rfl, by decide, C1_next_master_index_cases sampleParams3 3 rfl (by decide)⟩

/-- C2 counterexample: with federation threshold 2, the threshold argument
that create_node_share hands to VerifiableSS::share_at_indices is 1, not the
configured threshold 2 the claim asserts. -/
theorem C2_counterexample :
    sampleParams2.threshold = 2 ∧
    (create_node_share_vss_args sampleParams2).t = 1 ∧
    (1 : Nat) ≠ 2 := by
  decide

/-- C2 (amended): for a federation with threshold T at least 1 and N signers
where N is below 256 (the u8 cast in sharing_params truncates larger signer
counts modulo 256), the dealer step passes threshold T - 1, share count N,
and the fixed evaluation points 1..N to VerifiableSS::share_at_indices. -/
theorem C2_create_node_share_args (p : NodeParameters) (h : 1 ≤ p.threshold)
    (hn : p.pubkey_list.length < U8_MOD) :
    (create_node_share_vss_args p).t = p.threshold - 1 ∧
    (create_node_share_vss_args p).t + 1 = p.threshold ∧
    (create_node_share_vss_args p).n = p.pubkey_list.length ∧
    (create_node_share_vss_args p).parties
      = (List.range p.pubkey_list.length).map (fun i => i + 1) := by
  have hmod : p.pubkey_list.length % U8_MOD = p.pubkey_list.length :=
    Nat.mod_eq_of_lt hn
  refine ⟨rfl, ?_, ?_, ?_⟩
  · show p.threshold - 1 + 1 = p.threshold
    omega
  · show p.pubkey_list.length % U8_MOD = p.pubkey_list.length
    exact hmod
  · show (List.range (p.pubkey_list.length % U8_MOD)).map (fun i => i + 1) = _
    rw [hmod]

/-- C2 witness: the amended statement instantiated at a concrete two-signer
federation with threshold 2. -/
theorem C2_create_node_share_args_witness :
    1 ≤ sampleParams2.threshold ∧
    sampleParams2.pubkey_list.length < U8_MOD ∧
    ((create_node_share_vss_args sampleParams2).t = sampleParams2.threshold - 1 ∧
    (create_node_share_vss_args sampleParams2).t + 1 = sampleParams2.threshold ∧
    (create_node_share_vss_args sampleParams2).n = sampleParams2.pubkey_list.length ∧
    (create_node_share_vss_args sampleParams2).parties
      = (List.range sampleParams2.pubkey_list.length).map (fun i => i + 1)) :=
  ⟨by decide, by decide,
    C2_create_node_share_args sampleParams2 (by decide) (by decide)⟩

/-- C3 counterexample: a Blockvss message arriving while priv_shared_keys is
still unset makes process_round_message panic (modelled as none), refuting
the claim that it always returns a next state. -/
theorem C3_counterexample :
    (process_round_message constProcessors none [] NodeState.Joining (sid 1)
      (BlockGenerationRoundMessageType.Blockvss 0 sampleVss 0 sampleVss 0)).isSome
      = false :=
  rfl

/-- C3 (amended): process_round_message returns a next state exactly when
priv_shared_keys is set or the message is one of Candidateblock,
Completedblock, Roundfailure; with priv_shared_keys unset, a Blockvss,
Blockparticipants or Blocksig message panics on the expect() unwrap. -/
theorem C3_process_round_message_total (procs : MessageProcessors)
    (priv_shared_keys : Option SharedKeys) (shared_secrets : SharedSecretMap)
    (state : NodeState) (sender : SignerID) (msg : BlockGenerationRoundMessageType) :
    (process_round_message procs priv_shared_keys shared_secrets state sender msg).isSome
      = (priv_shared_keys.isSome || !(requires_priv_shared_keys msg)) := by
  cases msg <;> cases priv_shared_keys <;> rfl

/-- C4: processing a RoundFailure message leaves the node state unchanged,
both in process_roundfailure itself and through the process_round_message
dispatch. -/
theorem C4_roundfailure_state_unchanged (state : NodeState) (sender : SignerID)
    (procs : MessageProcessors) (priv_shared_keys : Option SharedKeys)
    (shared_secrets : SharedSecretMap) :
    process_roundfailure state sender = state ∧
    process_round_message procs priv_shared_keys shared_secrets state sender
      BlockGenerationRoundMessageType.Roundfailure = some state :=
  ⟨rfl, rfl⟩

/-- C5: the round timer of a freshly built signer node is armed with time
limit round_duration + 10 seconds (ROUND_TIMELIMIT_DELTA = 10), whenever the
u64 sum does not overflow. -/
theorem C5_round_timer_limit (params : NodeParameters)
    (h : params.round_duration + ROUND_TIMELIMIT_DELTA < U64_MOD) :
    ROUND_TIMELIMIT_DELTA = 10 ∧
    (SignerNode.new params).round_timer_limit = params.round_duration + 10 := by
  refine ⟨rfl, ?_⟩
  show (params.round_duration + ROUND_TIMELIMIT_DELTA) % U64_MOD = _
  rw [Nat.mod_eq_of_lt h]
  rfl

/-- C5 witness: the statement instantiated at a concrete configuration with
round_duration 60. -/
theorem C5_round_timer_limit_witness :
    sampleParams2.round_duration + ROUND_TIMELIMIT_DELTA < U64_MOD ∧
    (ROUND_TIMELIMIT_DELTA = 10 ∧
    (SignerNode.new sampleParams2).round_timer_limit
      = sampleParams2.round_duration + 10) :=
  ⟨by decide, C5_round_timer_limit sampleParams2 (by decide)⟩

/-- C6: next_master_index is deterministic, its result lies below the signer
count N, and over any N consecutive rounds driven by next_master_index and
the resulting Master/Member states every federation index is produced
exactly once. -/
theorem C6_round_robin_cycle (params : NodeParameters) (s0 : NodeState)
    (hpos : 0 < params.pubkey_list.length) :
    (∀ s s' p p', s = s' → p = p' → next_master_index s p = next_master_index s' p') ∧
    (∀ k, master_seq params s0 k < params.pubkey_list.length) ∧
    (∀ j, j < params.pubkey_list.length →
      ((List.range params.pubkey_list.length).map (master_seq params s0)).count j
        = 1) := by
  refine ⟨fun s s' p p' hs hp => by rw [hs, hp], master_seq_lt params s0 hpos, ?_⟩
  apply nodup_count_of_bound params.pubkey_list.length
  · apply List.Nodup.map_on ?_ (List.nodup_range _)
    intro x hx y hy hxy
    rw [List.mem_range] at hx hy
    rw [master_seq_closed params s0 hpos x, master_seq_closed params s0 hpos y] at hxy
    have h2 : x ≡ y [MOD params.pubkey_list.length] :=
      Nat.ModEq.add_left_cancel' _ hxy
    exact h2.eq_of_lt_of_lt hx hy
  · rw [List.length_map, List.length_range]
  · intro x hx
    rw [List.mem_map] at hx
    obtain ⟨k, _, rfl⟩ := hx
    exact master_seq_lt params s0 hpos k

/-- C6 witness: the statement instantiated at a concrete three-signer
federation starting from Joining. -/
theorem C6_round_robin_cycle_witness :
    0 < sampleParams3.pubkey_list.length ∧
    ((∀ s s' p p', s = s' → p = p' → next_master_index s p = next_master_index s' p') ∧
    (∀ k, master_seq sampleParams3 NodeState.Joining k
        < sampleParams3.pubkey_list.length) ∧
    (∀ j, j < sampleParams3.pubkey_list.length →
      ((List.range sampleParams3.pubkey_list.length).map
          (master_seq sampleParams3 NodeState.Joining)).count j = 1)) :=
  ⟨by decide, C6_round_robin_cycle sampleParams3 NodeState.Joining (by decide)⟩

/-- C7: when the getnewblock RPC call fails as this node becomes master,
start_new_round returns the default Master state (no candidate block, no
block key, empty shared_block_secrets, no block_shared_keys, no
participants) and broadcasts nothing. -/
theorem C7_rpc_error_abandons_round (params : NodeParameters) (e : RpcError)
    (block_vss : Block → FE × SharedSecret × SharedSecret) :
    (start_new_round params (Except.error e) block_vss).state = Master_default ∧
    Master_default = NodeState.Master none none [] none [] ∧
    (start_new_round params (Except.error e) block_vss).broadcasts = [] :=
  ⟨rfl, rfl, rfl⟩

/-- C8: validate_options returns an InvalidArgs error exactly when the number
of configured public keys is below the threshold or the public key derived
from the configured private key is not in the list, and returns Ok on every
other input. -/
theorem C8_validate_options_iff (derive_public_key : PrivateKey → PublicKey)
    (public_keys : List PublicKey) (private_key : PrivateKey) (threshold : Nat) :
    ((∃ msg, validate_options derive_public_key public_keys private_key threshold
        = Except.error (errors.Error.InvalidArgs msg)) ↔
      (public_keys.length < threshold ∨
        derive_public_key private_key ∉ public_keys)) ∧
    (validate_options derive_public_key public_keys private_key threshold
        = Except.ok () ↔
      (¬ public_keys.length < threshold ∧
        derive_public_key private_key ∈ public_keys)) := by
  have hok : validate_options derive_public_key public_keys private_key threshold
      = Except.ok () ↔
      (¬ public_keys.length < threshold ∧
        derive_public_key private_key ∈ public_keys) := by
    unfold validate_options
    by_cases hlen : public_keys.length < threshold
    · simp only [if_pos hlen]
      constructor
      · intro h
        exact absurd h (by simp)
      · intro h
        exact absurd hlen h.1
    · simp only [if_neg hlen]
      cases hfind : public_keys.find?
          (fun p => decide (p = derive_public_key private_key)) with
      | some q =>
        have hq : q = derive_public_key private_key := by
          have h1 := List.find?_some hfind
          rwa [decide_eq_true_eq] at h1
        have hqmem : derive_public_key private_key ∈ public_keys := by
          rw [← hq]
          exact List.mem_of_find?_eq_some hfind
        constructor
        · intro _
          exact ⟨hlen, hqmem⟩
        · intro _
          rfl
      | none =>
        have hnmem : derive_public_key private_key ∉ public_keys := by
          intro hmem
          have h1 := List.find?_eq_none.mp hfind _ hmem
          simp at h1
        constructor
        · intro h
          exact absurd h (by simp)
        · intro h
          exact absurd h.2 hnmem
  have herr : (∃ msg, validate_options derive_public_key public_keys private_key threshold
      = Except.error (errors.Error.InvalidArgs msg)) ↔
      ¬ (validate_options derive_public_key public_keys private_key threshold
        = Except.ok ()) := by
    cases hv : validate_options derive_public_key public_keys private_key threshold with
    | ok u =>
      cases u
      simp
    | error err =>
      cases err
      simp
  refine ⟨?_, hok⟩
  rw [herr, hok]
  tauto

/-- C9: master_index returns none exactly in Joining, the node's own index in
Master, and the stored master index in Member and RoundComplete. -/
theorem C9_master_index_cases (state : NodeState) (params : NodeParameters) :
    (master_index state params = none ↔ state = NodeState.Joining) ∧
    (∀ cb bk sbs bsk ps,
      master_index (NodeState.Master cb bk sbs bsk ps) params
        = some params.self_node_index) ∧
    (∀ bk bsk sbs cb ps mi,
      master_index (NodeState.Member bk bsk sbs cb ps mi) params = some mi) ∧
    (∀ mi nmi,
      master_index (NodeState.RoundComplete mi nmi) params = some mi) := by
  refine ⟨?_, fun _ _ _ _ _ => rfl, fun _ _ _ _ _ _ => rfl, fun _ _ => rfl⟩
  cases state <;> simp [master_index]

/-- C10: is_master is false in Joining and RoundComplete; in Master it holds
exactly for the node's own signer id, and in Member (with a master index
inside the signer list) exactly for the sender whose public key sits at that
index. -/
theorem C10_is_master_cases (sender : SignerID) (params : NodeParameters) :
    (is_master sender NodeState.Joining params = some false) ∧
    (∀ mi nmi, is_master sender (NodeState.RoundComplete mi nmi) params = some false) ∧
    (∀ cb bk sbs bsk ps,
      (is_master sender (NodeState.Master cb bk sbs bsk ps) params = some true ↔
        params.signer_id = sender)) ∧
    (∀ bk bsk sbs cb ps mi, ∀ h : mi < params.pubkey_list.length,
      (is_master sender (NodeState.Member bk bsk sbs cb ps mi) params = some true ↔
        params.pubkey_list.get ⟨mi, h⟩ = sender.pubkey)) := by
  refine ⟨rfl, fun _ _ => rfl, ?_, ?_⟩
  · intro cb bk sbs bsk ps
    simp [is_master]
  · intro bk bsk sbs cb ps mi h
    simp only [is_master, List.get?_eq_get h, List.get_eq_getElem, Option.map_some',
      Option.some.injEq, decide_eq_true_eq]

/-- C10 witness: the statement instantiated at a concrete sender and a
two-signer federation, with the Member hypothesis discharged at index 1. -/
theorem C10_is_master_cases_witness :
    (is_master (sid 1) NodeState.Joining sampleParams2 = some false) ∧
    (1 < sampleParams2.pubkey_list.length) ∧
    (is_master (sid 1) (NodeState.Member none none [] none [] 1) sampleParams2
        = some true ↔
      sampleParams2.pubkey_list.get ⟨1, by decide⟩ = (sid 1).pubkey) :=
  ⟨(C10_is_master_cases (sid 1) sampleParams2).1, by decide,
    (C10_is_master_cases (sid 1) sampleParams2).2.2.2 none none [] none [] 1 (by decide)⟩
